import Mathlib

/-
Verification of the SmartLead stale-lead deletion pipeline
(src/smartlead_consolidated_git.py) against its specification.

The Python source is shallowly embedded: pure data flow becomes Lean
functions, remote I/O (HTTP requests, file system, SMTP) is supplied by
explicit oracles, and the observable side effects of a run (report write,
backup write, delete calls, rate-limit sleeps, progress logs, emails) are
collected into an explicit event trace.
-/

/-- MAX_RETRIES constant of the source (retry ceiling of send_request). -/
def MAX_RETRIES : Nat := 5

/-- TARGET_LEADS constant of the source. -/
def TARGET_LEADS : Int := 20000

/-- EXCLUDE_CLIENT_IDS constant of the source. -/
def EXCLUDE_CLIENT_IDS : List Int := [1598]

/-- The statuses accepted by the campaign filter, from the tuple
("PAUSED", "COMPLETED") in filter_and_analyze_campaigns. -/
def allowedStatuses : List String := ["PAUSED", "COMPLETED"]

/-- Outcome of one attempt of requests.request inside send_request: either a
response carrying an HTTP status code, or a transport-level exception
(ConnectionError, Timeout, other RequestException). -/
inductive AttemptOutcome where
  | resp (status : Nat)
  | transportError
deriving DecidableEq, Repr

/-- The retry loop of send_request: walk the attempts in order.
response.raise_for_status() raises HTTPError exactly for status codes in
[400, 600), which the except clause catches, so such a response is retried
like a transport error; any other response is returned at once. -/
def sendRequestGo : List AttemptOutcome → Option Nat
  | [] => none
  | AttemptOutcome.transportError :: rest => sendRequestGo rest
  | AttemptOutcome.resp s :: rest =>
      if 400 ≤ s ∧ s < 600 then sendRequestGo rest else some s

/-- send_request: at most MAX_RETRIES attempts; exhaustion returns None. -/
def sendRequest (attempts : List AttemptOutcome) : Option Nat :=
  sendRequestGo (attempts.take MAX_RETRIES)

/-- delete_single_lead: True when the wrapped request yields a usable
response with status 200, True when it yields status 404 (the
"already deleted" branch), False otherwise (including an absent response
after exhausted retries). -/
def deleteSingleLead (attempts : List AttemptOutcome) : Bool :=
  match sendRequest attempts with
  | some s => if s = 200 then true else if s = 404 then true else false
  | none => false

/-- A lead row of an exported campaign CSV as consumed by the source:
delete_leads reads the "id" column and analyze_campaign_leads the
"reply_count" column; `none` models a missing value (pandas NaN). -/
structure Lead where
  id : Option Int
  replyCount : Option Int
deriving DecidableEq, Repr

/-- A campaign object fetched from the API. createdAt / updatedAt hold the
result of datetime.strptime on the corresponding raw field: `some t` for a
successful parse (time in the IST reference frame, as an integer instant),
`none` when strptime raises on the raw string. -/
structure Campaign where
  id : Option Int
  name : String
  status : String
  clientId : Option Int
  createdAt : Option Int
  updatedAt : Option Int
deriving DecidableEq, Repr

/-- One row of the all-campaigns analysis CSV, restricted to the columns the
rest of the pipeline and the properties below consume. -/
structure ReportRow where
  campaignId : Option Int
  campaignName : String
  status : String
  clientId : Option Int
  included : Bool
  totalLeads : Int
  noReplyLeads : Int
deriving DecidableEq, Repr

/-- One row of the deletion backup CSV: the lead's fields plus the campaign
metadata columns added by create_deletion_backup. -/
structure BackupRecord where
  leadId : Option Int
  replyCount : Option Int
  campaignId : Option Int
  campaignName : String
deriving DecidableEq, Repr

/-- Observable side effects of a run, in execution order. -/
inductive Event where
  | reportWritten (rows : List ReportRow)
  | backupWritten (records : List BackupRecord)
  | deleteCall (campaignId leadId : Int)
  | sleep
  | progressLog (n : Nat)
  | completionEmail
  | failureEmail (msg : String)
deriving DecidableEq, Repr

/-- The boolean filter used on the exported dataframe:
df[df[reply_count] == 0].  A pandas NaN (`none`) compared to 0 is False. -/
def isNoReply (l : Lead) : Bool := decide (l.replyCount = some 0)

/-- analyze_campaign_leads on a readable export: the no-reply subset, the
total row count and the no-reply row count. -/
def analyzeCampaignLeads (leads : List Lead) : List Lead × Nat × Nat :=
  let noReply := leads.filter isNoReply
  (noReply, leads.length, noReply.length)

/-- The except-branch of analyze_campaign_leads: an unreadable export or a
missing reply_count column yields an empty frame with zero counts. -/
def analyzeExport : Option (List Lead) → List Lead × Nat × Nat
  | some leads => analyzeCampaignLeads leads
  | none => ([], 0, 0)

/-- The inclusion decision of filter_and_analyze_campaigns:
client_id not in EXCLUDE_CLIENT_IDS and status in ("PAUSED", "COMPLETED")
and created_ist <= cutoff_date.  A None client id is not in the exclusion
list, matching Python's `None not in [...]`. -/
def includeCampaign (excludeIds : List Int) (cutoff : Int)
    (clientId : Option Int) (status : String) (created : Int) : Bool :=
  !(excludeIds.any fun e => decide (clientId = some e))
    && allowedStatuses.contains status && decide (created ≤ cutoff)

/-- Total / no-reply counts recorded in a campaign's report row: for an
included campaign the fresh export is analyzed (a failed export leaves both
at zero), a non-included campaign records zeros without exporting. -/
def campaignCounts (export2 : Option (List Lead)) (include2 : Bool) : Int × Int :=
  if include2 then
    match export2 with
    | some leads =>
        let r := analyzeCampaignLeads leads
        ((r.2.1 : Int), (r.2.2 : Int))
    | none => (0, 0)
  else (0, 0)

/-- The body of the per-campaign try block of filter_and_analyze_campaigns:
`none` models the exception path (strptime failing on created_at or
updated_at), in which the row is never written and the campaign never
appended to the filtered list; `some (row, include)` is the normal path. -/
def processCampaign (excludeIds : List Int) (cutoff : Int)
    (export1 : Campaign → Option (List Lead)) (c : Campaign) :
    Option (ReportRow × Bool) :=
  match c.createdAt, c.updatedAt with
  | some created, some _ =>
      let include2 := includeCampaign excludeIds cutoff c.clientId c.status created
      let counts := campaignCounts (export1 c) include2
      some ({ campaignId := c.id, campaignName := c.name, status := c.status,
              clientId := c.clientId, included := include2,
              totalLeads := counts.1, noReplyLeads := counts.2 }, include2)
  | _, _ => none

/-- filter_and_analyze_campaigns: the loop over campaigns, producing the
written report rows (in input order) and the filtered campaign list. -/
def filterAndAnalyzeCampaigns (excludeIds : List Int) (cutoff : Int)
    (export1 : Campaign → Option (List Lead)) :
    List Campaign → List ReportRow × List Campaign
  | [] => ([], [])
  | c :: rest =>
      let tail := filterAndAnalyzeCampaigns excludeIds cutoff export1 rest
      match processCampaign excludeIds cutoff export1 c with
      | some (row, include2) =>
          (row :: tail.1, if include2 then c :: tail.2 else tail.2)
      | none => tail

/-- Comparison key of the selector's sort: the "No Reply Leads" column. -/
def rowLE (a b : ReportRow) : Prop := a.noReplyLeads ≤ b.noReplyLeads

instance : DecidableRel rowLE := fun a b =>
  inferInstanceAs (Decidable (a.noReplyLeads ≤ b.noReplyLeads))

instance : IsTotal ReportRow rowLE :=
  ⟨fun a b => Int.le_total a.noReplyLeads b.noReplyLeads⟩

instance : IsTrans ReportRow rowLE :=
  ⟨fun _ _ _ hab hbc => le_trans hab hbc⟩

/-- Model of pandas DataFrame.sort_values(by=.., ascending=False) as used by
select_campaigns_for_deletion: for a descending sort, pandas nargsort
reverses the values and their indices BEFORE the ascending argsort and
reverses the resulting indexer AFTER, so with a stable underlying sort the
two reversals cancel on equal keys and ties keep their original row order
(a stable descending sort).  The default numpy sort is an insertion sort —
stable — below numpy's introsort small-array threshold and an unstable
quicksort above it; the model adopts the stable small-pool behavior. -/
def pandasSortDesc (rows : List ReportRow) : List ReportRow :=
  (List.insertionSort rowLE rows.reverse).reverse

/-- The selection loop of select_campaigns_for_deletion: skip rows with a
non-positive no-reply count, otherwise take the row, add its count, and
stop as soon as the running sum reaches the target. -/
def selectLoop (target : Int) : List ReportRow → Int → List ReportRow × Int
  | [], cum => ([], cum)
  | r :: rest, cum =>
      if r.noReplyLeads ≤ 0 then selectLoop target rest cum
      else if target ≤ cum + r.noReplyLeads then ([r], cum + r.noReplyLeads)
      else
        ((r :: (selectLoop target rest (cum + r.noReplyLeads)).1),
         (selectLoop target rest (cum + r.noReplyLeads)).2)

/-- select_campaigns_for_deletion: restrict the report to rows whose
"Included in Filter" column is "Yes", sort descending by no-reply count,
and run the accumulation loop.  Returns the selected rows and the achieved
cumulative count. -/
def selectCampaignsForDeletion (target : Int) (rows : List ReportRow) :
    List ReportRow × Int :=
  selectLoop target (pandasSortDesc (rows.filter fun r => r.included)) 0

/-- The backup rows contributed by one selected campaign: the no-reply
subset of its fresh export, each row extended with the campaign metadata
columns added by create_deletion_backup. -/
def backupRecordsFor (row : ReportRow) (leads : List Lead) : List BackupRecord :=
  (leads.filter isNoReply).map fun l =>
    { leadId := l.id, replyCount := l.replyCount,
      campaignId := row.campaignId, campaignName := row.campaignName }

/-- create_deletion_backup: per selected campaign, re-export (a failed
export is logged and contributes nothing) and accumulate the tagged
no-reply leads into the unified deletion set. -/
def createDeletionBackup (export2 : Option Int → Option (List Lead)) :
    List ReportRow → List BackupRecord
  | [] => []
  | row :: rest =>
      let tail := createDeletionBackup export2 rest
      match export2 row.campaignId with
      | none => tail
      | some leads => backupRecordsFor row leads ++ tail

/-- A backup row passes the identifier validation of delete_leads when
neither pd.isna(campaign_id) nor pd.isna(lead_id) holds. -/
def validRecord (r : BackupRecord) : Bool :=
  r.campaignId.isSome && r.leadId.isSome

/-- The loop of delete_leads, threading the success and failure counters:
a row failing identifier validation increments the failure counter and
continues (skipping the delete call, the rate-limit sleep and the progress
check); a validated row issues the delete call, sleeps, and logs progress
when the processed count is a multiple of 100. -/
def deleteLeadsGo (oracle : Int → Int → List AttemptOutcome) :
    List BackupRecord → Nat → Nat → Nat × Nat × List Event
  | [], s, f => (s, f, [])
  | r :: rest, s, f =>
      match r.campaignId, r.leadId with
      | some cid, some lid =>
          let ok := deleteSingleLead (oracle cid lid)
          let s2 := if ok then s + 1 else s
          let f2 := if ok then f else f + 1
          let evs := [Event.deleteCall cid lid, Event.sleep] ++
            (if (s2 + f2) % 100 = 0 then [Event.progressLog (s2 + f2)] else [])
          let tail := deleteLeadsGo oracle rest s2 f2
          (tail.1, tail.2.1, evs ++ tail.2.2)
      | _, _ =>
          let tail := deleteLeadsGo oracle rest s (f + 1)
          (tail.1, tail.2.1, tail.2.2)

/-- delete_leads: early return on an empty backup frame, otherwise run the
loop.  Returns (success count, failure count, event trace). -/
def deleteLeads (oracle : Int → Int → List AttemptOutcome)
    (backup : List BackupRecord) : Nat × Nat × List Event :=
  if backup.isEmpty then (0, 0, [])
  else deleteLeadsGo oracle backup 0 0

/-- The environment of one run: the configuration constants and the oracles
answering the remote calls the pipeline issues — the fetched campaign list,
the per-campaign export of the filter stage, the per-campaign-id re-export
of the backup stage, and the delete-attempt outcomes per (campaign, lead). -/
structure Env where
  excludeIds : List Int
  cutoff : Int
  target : Int
  campaigns : List Campaign
  exportFilter : Campaign → Option (List Lead)
  exportBackup : Option Int → Option (List Lead)
  deleteAttempts : Int → Int → List AttemptOutcome

/-- The report rows written by step 2 of run_full_process. -/
def pipelineRows (env : Env) : List ReportRow :=
  (filterAndAnalyzeCampaigns env.excludeIds env.cutoff
    env.exportFilter env.campaigns).1

/-- The filtered campaign list returned by step 2 of run_full_process. -/
def pipelineFiltered (env : Env) : List Campaign :=
  (filterAndAnalyzeCampaigns env.excludeIds env.cutoff
    env.exportFilter env.campaigns).2

/-- The campaigns selected by step 3 of run_full_process. -/
def pipelineSelected (env : Env) : List ReportRow :=
  (selectCampaignsForDeletion env.target (pipelineRows env)).1

/-- The unified backup set built by step 4 of run_full_process. -/
def pipelineBackup (env : Env) : List BackupRecord :=
  createDeletionBackup env.exportBackup (pipelineSelected env)

/-- run_full_process: the staged pipeline with its four halting checks.
Each check raises an exception whose message is the one in the source; the
surrounding except clause sends the failure email (an attempt-event,
send_email itself never raises) and re-raises, so the function result is
the trace of observable events together with the terminal outcome. -/
def runFullProcess (env : Env) : List Event × Except String Unit :=
  if env.campaigns.isEmpty then
    ([Event.failureEmail "No campaigns retrieved"],
     Except.error "No campaigns retrieved")
  else if (pipelineFiltered env).isEmpty then
    ([Event.reportWritten (pipelineRows env),
      Event.failureEmail "No campaigns match filter criteria"],
     Except.error "No campaigns match filter criteria")
  else if (pipelineSelected env).isEmpty then
    ([Event.reportWritten (pipelineRows env),
      Event.failureEmail "No campaigns selected for deletion"],
     Except.error "No campaigns selected for deletion")
  else if (pipelineBackup env).isEmpty then
    ([Event.reportWritten (pipelineRows env),
      Event.failureEmail "No leads found for backup"],
     Except.error "No leads found for backup")
  else
    (Event.reportWritten (pipelineRows env) ::
       Event.backupWritten (pipelineBackup env) ::
       ((deleteLeads env.deleteAttempts (pipelineBackup env)).2.2 ++
         [Event.completionEmail]),
     Except.ok ())

/-- main: a terminal error escaping run_full_process is caught and the
process exits with status 1; otherwise it exits with status 0. -/
def mainExitCode (env : Env) : Nat :=
  match (runFullProcess env).2 with
  | Except.ok _ => 0
  | Except.error _ => 1

/-- The collaborators of send_email: the file system (os.path.isfile plus
the read of an existing attachment) and the outcome of the SMTP session
(login and send_message). -/
structure EmailEnv where
  files : String → Option String
  smtp : Except String Unit

/-- Log events emitted by send_email. -/
inductive EmailEvent where
  | warnMissingAttachment (path : String)
  | infoSent
  | errorFailed (msg : String)
deriving DecidableEq, Repr

/-- The attachment loop of send_email: an existing file is read and
attached, a missing one only produces a warning log. -/
def attachmentEvents (files : String → Option String) :
    List String → List EmailEvent
  | [] => []
  | p :: rest =>
      (match files p with
       | some _ => []
       | none => [EmailEvent.warnMissingAttachment p]) ++
        attachmentEvents files rest

/-- The try-block body of send_email as a fallible computation: building
the message and walking the attachments cannot fail, the SMTP session can. -/
def sendEmailBody (env : EmailEnv) (attachments : List String) :
    Except String (List EmailEvent) :=
  let evs := attachmentEvents env.files attachments
  match env.smtp with
  | Except.ok _ => Except.ok (evs ++ [EmailEvent.infoSent])
  | Except.error e => Except.error e

/-- send_email: the except clause converts any failure of the body into the
return value False, so the caller can never observe an exception; success
returns True. -/
def sendEmail (env : EmailEnv) (attachments : List String) :
    Bool × List EmailEvent :=
  match sendEmailBody env attachments with
  | Except.ok evs => (true, evs)
  | Except.error e =>
      (false, attachmentEvents env.files attachments ++
        [EmailEvent.errorFailed e])

/-- A campaign that passes every filter clause (client 5 not excluded,
status PAUSED, created at instant 0). -/
def camp0 : Campaign :=
  { id := some 1, name := "A", status := "PAUSED", clientId := some 5,
    createdAt := some 0, updatedAt := some 0 }

/-- A lead with zero replies. -/
def lead0 : Lead := { id := some 10, replyCount := some 0 }

/-- An environment whose single campaign is eligible, exports one no-reply
lead, and whose delete call answers 200 at once. -/
def env0 : Env :=
  { excludeIds := [1598], cutoff := 10, target := 1,
    campaigns := [camp0],
    exportFilter := fun _ => some [lead0],
    exportBackup := fun _ => some [lead0],
    deleteAttempts := fun _ _ => [AttemptOutcome.resp 200] }

/-- An environment in which the campaign fetch yields nothing. -/
def env1 : Env :=
  { excludeIds := [1598], cutoff := 10, target := 1,
    campaigns := [],
    exportFilter := fun _ => some [lead0],
    exportBackup := fun _ => some [lead0],
    deleteAttempts := fun _ _ => [AttemptOutcome.resp 200] }

/-- A campaign whose created_at string fails to parse (strptime raises). -/
def badCampaign : Campaign :=
  { id := some 7, name := "broken", status := "PAUSED", clientId := some 5,
    createdAt := none, updatedAt := some 0 }

/-- A lead whose reply_count cell is missing (pandas NaN). -/
def missingLead : Lead := { id := some 3, replyCount := none }

/-- Two included report rows with equal no-reply counts, distinguished by
their campaign ids. -/
def tieRow0 : ReportRow :=
  { campaignId := some 1, campaignName := "first", status := "PAUSED",
    clientId := some 5, included := true, totalLeads := 30, noReplyLeads := 30 }

/-- Second of the two equal-count rows. -/
def tieRow1 : ReportRow :=
  { campaignId := some 2, campaignName := "second", status := "PAUSED",
    clientId := some 5, included := true, totalLeads := 30, noReplyLeads := 30 }

/-- An included report row with the given campaign id and no-reply count. -/
def mkRow (cid : Int) (n : Int) : ReportRow :=
  { campaignId := some cid, campaignName := "c", status := "PAUSED",
    clientId := some 5, included := true, totalLeads := n, noReplyLeads := n }

/-- The eligible pool of end-to-end scenario 2 of the specification:
no-reply counts 50, 30, 20, 5. -/
def demoRows : List ReportRow := [mkRow 1 50, mkRow 2 30, mkRow 3 20, mkRow 4 5]

/-- Five attempts all answered with HTTP 404. -/
def attempts404 : List AttemptOutcome :=
  List.replicate 5 (AttemptOutcome.resp 404)

/-- A fully identified backup record. -/
def rec404 : BackupRecord :=
  { leadId := some 11, replyCount := some 0, campaignId := some 3,
    campaignName := "c" }

/-- A backup record whose lead id cell is missing (pandas NaN), failing the
identifier validation of delete_leads. -/
def recNoLead : BackupRecord :=
  { leadId := none, replyCount := some 0, campaignId := some 3,
    campaignName := "c" }

/-- Truth of the progress-interval property for a single trace event. -/
def progressEventOk : Event → Bool
  | Event.progressLog n => n % 100 == 0
  | _ => true

/-- An email environment in which no attachment path exists and the SMTP
session succeeds. -/
def emailEnv0 : EmailEnv := { files := fun _ => none, smtp := Except.ok () }

theorem selectLoop_sum (target : Int) (l : List ReportRow) (cum : Int) :
    (selectLoop target l cum).2 =
      cum + ((selectLoop target l cum).1.map fun r => r.noReplyLeads).sum := by
  induction l generalizing cum with
  | nil => simp [selectLoop]
  | cons r rest ih =>
      by_cases h1 : r.noReplyLeads ≤ 0
      · simp [selectLoop, h1, ih]
      · by_cases h2 : target ≤ cum + r.noReplyLeads
        · simp [selectLoop, h1, h2]
        · simp only [selectLoop, if_neg h1, if_neg h2, List.map_cons, List.sum_cons]
          rw [ih]
          ring

theorem selectLoop_pos (target : Int) (l : List ReportRow) (cum : Int) :
    ∀ r ∈ (selectLoop target l cum).1, 0 < r.noReplyLeads := by
  induction l generalizing cum with
  | nil => simp [selectLoop]
  | cons r rest ih =>
      by_cases h1 : r.noReplyLeads ≤ 0
      · simpa [selectLoop, h1] using ih cum
      · by_cases h2 : target ≤ cum + r.noReplyLeads
        · simp only [selectLoop, if_neg h1, if_pos h2]
          intro x hx
          simp at hx
          subst hx
          omega
        · intro x hx
          simp only [selectLoop, if_neg h1, if_neg h2, List.mem_cons] at hx
          rcases hx with rfl | hx
          · omega
          · exact ih _ x hx

theorem selectLoop_sublist (target : Int) (l : List ReportRow) (cum : Int) :
    ((selectLoop target l cum).1).Sublist l := by
  induction l generalizing cum with
  | nil => simp [selectLoop]
  | cons r rest ih =>
      by_cases h1 : r.noReplyLeads ≤ 0
      · simp only [selectLoop, if_pos h1]
        exact (ih cum).cons r
      · by_cases h2 : target ≤ cum + r.noReplyLeads
        · simp only [selectLoop, if_neg h1, if_pos h2]
          exact (List.nil_sublist rest).cons₂ r
        · simp only [selectLoop, if_neg h1, if_neg h2]
          exact (ih _).cons₂ r

theorem selectLoop_exhaust (target : Int) (l : List ReportRow) (cum : Int)
    (h : (selectLoop target l cum).2 < target) :
    (selectLoop target l cum).1 = l.filter fun r => decide (0 < r.noReplyLeads) := by
  induction l generalizing cum with
  | nil => simp [selectLoop]
  | cons r rest ih =>
      by_cases h1 : r.noReplyLeads ≤ 0
      · rw [selectLoop] at h ⊢
        rw [if_pos h1] at h ⊢
        rw [List.filter_cons_of_neg (by simpa using h1)]
        exact ih cum h
      · by_cases h2 : target ≤ cum + r.noReplyLeads
        · rw [selectLoop, if_neg h1, if_pos h2] at h
          omega
        · rw [selectLoop, if_neg h1, if_neg h2] at h ⊢
          rw [List.filter_cons_of_pos (by simpa using h1)]
          simp only [List.cons.injEq, true_and]
          exact ih _ h

theorem selectLoop_take (target : Int) (l : List ReportRow) (cum : Int)
    (hcum : cum < target) :
    ∀ k < (selectLoop target l cum).1.length,
      cum + (((selectLoop target l cum).1.take k).map fun r => r.noReplyLeads).sum
        < target := by
  induction l generalizing cum with
  | nil => simp [selectLoop]
  | cons r rest ih =>
      by_cases h1 : r.noReplyLeads ≤ 0
      · simpa [selectLoop, h1] using ih cum hcum
      · by_cases h2 : target ≤ cum + r.noReplyLeads
        · intro k hk
          simp only [selectLoop, if_neg h1, if_pos h2, List.length_singleton] at hk ⊢
          interval_cases k
          simpa using hcum
        · intro k hk
          simp only [selectLoop, if_neg h1, if_neg h2, List.length_cons] at hk ⊢
          cases k with
          | zero => simpa using hcum
          | succ j =>
              have hj : j < (selectLoop target rest (cum + r.noReplyLeads)).1.length := by
                omega
              have hrec := ih (cum + r.noReplyLeads) (by omega) j hj
              simp only [List.take_succ_cons, List.map_cons, List.sum_cons]
              linarith

theorem pandasSortDesc_sorted (rows : List ReportRow) :
    List.Pairwise (fun a b => b.noReplyLeads ≤ a.noReplyLeads)
      (pandasSortDesc rows) := by
  have h : List.Pairwise rowLE (List.insertionSort rowLE rows.reverse) :=
    List.sorted_insertionSort rowLE rows.reverse
  rw [pandasSortDesc]
  exact List.pairwise_reverse.2 h

theorem deleteLeadsGo_deleteCall_mem (oracle : Int → Int → List AttemptOutcome)
    (backup : List BackupRecord) (s f : Nat) (cid lid : Int)
    (h : Event.deleteCall cid lid ∈ (deleteLeadsGo oracle backup s f).2.2) :
    ∃ r ∈ backup, r.campaignId = some cid ∧ r.leadId = some lid := by
  induction backup generalizing s f with
  | nil => simp [deleteLeadsGo] at h
  | cons r rest ih =>
      cases hc : r.campaignId with
      | none =>
          rw [deleteLeadsGo] at h
          rw [hc] at h
          obtain ⟨x, hx, hx2⟩ := ih _ _ h
          exact ⟨x, List.mem_cons_of_mem _ hx, hx2⟩
      | some c0 =>
          cases hl : r.leadId with
          | none =>
              rw [deleteLeadsGo] at h
              rw [hc, hl] at h
              obtain ⟨x, hx, hx2⟩ := ih _ _ h
              exact ⟨x, List.mem_cons_of_mem _ hx, hx2⟩
          | some l0 =>
              rw [deleteLeadsGo] at h
              rw [hc, hl] at h
              simp only [List.mem_append, List.mem_cons] at h
              rcases h with ((h | h | h) | h) | h
              · rcases Event.deleteCall.injEq .. ▸ h with ⟨rfl, rfl⟩
                exact ⟨r, List.mem_cons_self r rest, hc, hl⟩
              · exact absurd h (by simp)
              · exact absurd h (by simp)
              · revert h
                split
                · intro h
                  simp at h
                · intro h
                  simp at h
              · obtain ⟨x, hx, hx2⟩ := ih _ _ h
                exact ⟨x, List.mem_cons_of_mem _ hx, hx2⟩

theorem deleteLeadsGo_sleep_count (oracle : Int → Int → List AttemptOutcome)
    (backup : List BackupRecord) (s f : Nat) :
    (deleteLeadsGo oracle backup s f).2.2.count Event.sleep =
      (backup.filter validRecord).length := by
  induction backup generalizing s f with
  | nil => simp [deleteLeadsGo]
  | cons r rest ih =>
      cases hc : r.campaignId with
      | none =>
          rw [deleteLeadsGo, hc]
          rw [List.filter_cons_of_neg (by simp [validRecord, hc])]
          exact ih _ _
      | some c0 =>
          cases hl : r.leadId with
          | none =>
              rw [deleteLeadsGo, hc, hl]
              rw [List.filter_cons_of_neg (by simp [validRecord, hc, hl])]
              exact ih _ _
          | some l0 =>
              rw [deleteLeadsGo, hc, hl]
              rw [List.filter_cons_of_pos (by simp [validRecord, hc, hl])]
              simp only [List.count_append, List.length_cons]
              rw [ih]
              generalize ((if deleteSingleLead (oracle c0 l0) = true then s + 1 else s) +
                if deleteSingleLead (oracle c0 l0) = true then f else f + 1) = n
              split <;> simp [List.count_cons] <;> omega

theorem deleteLeadsGo_progress_ok (oracle : Int → Int → List AttemptOutcome)
    (backup : List BackupRecord) (s f : Nat) :
    (deleteLeadsGo oracle backup s f).2.2.all progressEventOk = true := by
  induction backup generalizing s f with
  | nil => simp [deleteLeadsGo]
  | cons r rest ih =>
      cases hc : r.campaignId with
      | none =>
          rw [deleteLeadsGo, hc]
          exact ih _ _
      | some c0 =>
          cases hl : r.leadId with
          | none =>
              rw [deleteLeadsGo, hc, hl]
              exact ih _ _
          | some l0 =>
              rw [deleteLeadsGo, hc, hl]
              rw [List.all_append]
              refine Bool.and_eq_true_iff.2 ⟨?_, ih _ _⟩
              rw [List.all_append]
              refine Bool.and_eq_true_iff.2 ⟨by simp [progressEventOk], ?_⟩
              generalize ((if deleteSingleLead (oracle c0 l0) = true then s + 1 else s) +
                if deleteSingleLead (oracle c0 l0) = true then f else f + 1) = n
              split
              · next hmod => simp [progressEventOk, hmod]
              · simp

theorem filterRows_eq_filterMap (excludeIds : List Int) (cutoff : Int)
    (export1 : Campaign → Option (List Lead)) (campaigns : List Campaign) :
    (filterAndAnalyzeCampaigns excludeIds cutoff export1 campaigns).1 =
      campaigns.filterMap fun c =>
        (processCampaign excludeIds cutoff export1 c).map Prod.fst := by
  induction campaigns with
  | nil => simp [filterAndAnalyzeCampaigns]
  | cons c rest ih =>
      rw [filterAndAnalyzeCampaigns, List.filterMap_cons]
      cases hp : processCampaign excludeIds cutoff export1 c with
      | none => simpa [hp] using ih
      | some p => simp [hp, ih]

theorem processCampaign_isSome (excludeIds : List Int) (cutoff : Int)
    (export1 : Campaign → Option (List Lead)) (c : Campaign) :
    (processCampaign excludeIds cutoff export1 c).isSome =
      (c.createdAt.isSome && c.updatedAt.isSome) := by
  cases hc : c.createdAt <;> cases hu : c.updatedAt <;>
    simp [processCampaign, hc, hu]

theorem filterRows_length (excludeIds : List Int) (cutoff : Int)
    (export1 : Campaign → Option (List Lead)) (campaigns : List Campaign) :
    (filterAndAnalyzeCampaigns excludeIds cutoff export1 campaigns).1.length =
      (campaigns.filter fun c => c.createdAt.isSome && c.updatedAt.isSome).length := by
  induction campaigns with
  | nil => simp [filterAndAnalyzeCampaigns]
  | cons c rest ih =>
      rw [filterAndAnalyzeCampaigns]
      cases hc : c.createdAt with
      | none =>
          rw [List.filter_cons_of_neg (by simp [hc])]
          simpa [processCampaign, hc] using ih
      | some t =>
          cases hu : c.updatedAt with
          | none =>
              rw [List.filter_cons_of_neg (by simp [hc, hu])]
              simpa [processCampaign, hc, hu] using ih
          | some u =>
              rw [List.filter_cons_of_pos (by simp [hc, hu])]
              simp only [processCampaign, hc, hu, List.length_cons]
              rw [← ih]

theorem filter_length_partition {α : Type} (p : α → Bool) (l : List α) :
    l.length = (l.filter p).length + (l.filter fun a => !(p a)).length := by
  induction l with
  | nil => simp
  | cons a l ih =>
      cases h : p a <;> simp [List.filter_cons, h, ih] <;> omega

theorem filterKey_orderedInsert (k : Int) (a : ReportRow)
    (s : List ReportRow) :
    (List.orderedInsert rowLE a s).filter
        (fun r => decide (r.noReplyLeads = k)) =
      if a.noReplyLeads = k
      then a :: s.filter (fun r => decide (r.noReplyLeads = k))
      else s.filter (fun r => decide (r.noReplyLeads = k)) := by
  induction s with
  | nil =>
      by_cases hak : a.noReplyLeads = k
      · rw [if_pos hak]
        simp [List.orderedInsert, List.filter_cons, hak]
      · rw [if_neg hak]
        simp [List.orderedInsert, List.filter_cons, hak]
  | cons b t ih =>
      by_cases hab : rowLE a b
      · rw [List.orderedInsert, if_pos hab]
        by_cases hak : a.noReplyLeads = k
        · rw [if_pos hak]
          simp [List.filter_cons, hak]
        · rw [if_neg hak]
          simp [List.filter_cons, hak]
      · rw [List.orderedInsert, if_neg hab]
        by_cases hbk : b.noReplyLeads = k
        · have hak : ¬ a.noReplyLeads = k := by
            intro hak
            exact hab (by rw [rowLE, hak, hbk])
          rw [if_neg hak]
          simp [List.filter_cons, hbk, ih, if_neg hak]
        · by_cases hak : a.noReplyLeads = k
          · rw [if_pos hak]
            simp [List.filter_cons, hbk, ih, if_pos hak]
          · rw [if_neg hak]
            simp [List.filter_cons, hbk, ih, if_neg hak]

theorem filterKey_insertionSort (k : Int) (l : List ReportRow) :
    (List.insertionSort rowLE l).filter
        (fun r => decide (r.noReplyLeads = k)) =
      l.filter (fun r => decide (r.noReplyLeads = k)) := by
  induction l with
  | nil => simp
  | cons a t ih =>
      rw [List.insertionSort, filterKey_orderedInsert, ih]
      by_cases hak : a.noReplyLeads = k
      · rw [if_pos hak]
        simp [List.filter_cons, hak]
      · rw [if_neg hak]
        simp [List.filter_cons, hak]

theorem pandasSortDesc_stable (k : Int) (rows : List ReportRow) :
    (pandasSortDesc rows).filter (fun r => decide (r.noReplyLeads = k)) =
      rows.filter (fun r => decide (r.noReplyLeads = k)) := by
  rw [pandasSortDesc, List.filter_reverse, filterKey_insertionSort,
    List.filter_reverse, List.reverse_reverse]

/-- Claim C1, evaluated at the failing input: a backup record whose remote
DELETE call answers HTTP 404 on every attempt.  send_request treats the 404
as an error (raise_for_status), retries until exhaustion and returns no
response, so delete_single_lead returns False and the Deletion Executor
counts the record as a failure — contradicting the claimed
not-found-is-success rule (the 404 branch of delete_single_lead is
unreachable).  The success+failure = record-count part does hold here. -/
theorem C1_notFound_counted_failed :
    sendRequest attempts404 = none
    ∧ deleteSingleLead attempts404 = false
    ∧ (deleteLeads (fun _ _ => attempts404) [rec404]).1 = 0
    ∧ (deleteLeads (fun _ _ => attempts404) [rec404]).2.1 = 1
    ∧ (deleteLeads (fun _ _ => attempts404) [rec404]).1 +
        (deleteLeads (fun _ _ => attempts404) [rec404]).2.1 = [rec404].length := by
  decide

/-- Claim C7, counterexample: a lead whose reply_count cell is missing
(pandas NaN) is NOT placed in the non-responding subset and is not counted,
because NaN == 0 evaluates to False — the claim says a missing reply count
classifies the lead as non-responding. -/
theorem C7_missing_reply_cex :
    missingLead.replyCount = none
    ∧ missingLead ∈ [missingLead]
    ∧ missingLead ∉ (analyzeCampaignLeads [missingLead]).1
    ∧ (analyzeCampaignLeads [missingLead]).2.1 = 1
    ∧ (analyzeCampaignLeads [missingLead]).2.2 = 0 := by
  decide

/-- Claim C7 as amended: the Lead Analyzer classifies a lead as
non-responding iff its reply count is present and equal to zero; a lead
with a missing reply count is excluded from the non-responding subset.
The returned subset, total count and non-responding count agree with this
partition. -/
theorem C7_partition (leads : List Lead) :
    (∀ l, l ∈ (analyzeCampaignLeads leads).1 ↔
        l ∈ leads ∧ l.replyCount = some 0)
    ∧ (analyzeCampaignLeads leads).2.1 = leads.length
    ∧ (analyzeCampaignLeads leads).2.2 = (analyzeCampaignLeads leads).1.length
    ∧ (analyzeCampaignLeads leads).2.1 =
        (analyzeCampaignLeads leads).2.2 +
          (leads.filter fun l => !(isNoReply l)).length := by
  refine ⟨?_, rfl, rfl, ?_⟩
  · intro l
    simp [analyzeCampaignLeads, List.mem_filter, isNoReply]
  · simpa [analyzeCampaignLeads] using filter_length_partition isNoReply leads

/-- Claim C9, counterexample: a backup record failing identifier validation
(missing lead id) is processed and counted as a failure, but the `continue`
skips the fixed inter-call delay, so no sleep happens — the claim says the
delay is applied after every record including validation failures. -/
theorem C9_skip_validation_cex :
    (deleteLeads (fun _ _ => [AttemptOutcome.resp 200]) [recNoLead]).2.1 = 1
    ∧ (deleteLeads (fun _ _ => [AttemptOutcome.resp 200])
        [recNoLead]).2.2.count Event.sleep = 0
    ∧ (deleteLeads (fun _ _ => [AttemptOutcome.resp 200]) [recNoLead]).2.2 = [] := by
  decide

/-- Claim C9 as amended: the fixed inter-call delay is applied after every
record that passes identifier validation (and only those — a record with a
missing campaign id or lead id is counted as a failure but skips the delay
and the progress check), and every progress log is emitted at a processed
count that is a multiple of 100. -/
theorem C9_delay_for_validated (oracle : Int → Int → List AttemptOutcome)
    (backup : List BackupRecord) :
    (deleteLeads oracle backup).2.2.count Event.sleep =
      (backup.filter validRecord).length
    ∧ (deleteLeads oracle backup).2.2.all progressEventOk = true := by
  cases backup with
  | nil => simp [deleteLeads]
  | cons r rest =>
      rw [deleteLeads, if_neg (by simp)]
      exact ⟨deleteLeadsGo_sleep_count oracle (r :: rest) 0 0,
        deleteLeadsGo_progress_ok oracle (r :: rest) 0 0⟩

/-- Claim C3: for every campaign whose timestamps parse, the inclusion
decision recorded by the Campaign Filter is true iff the client id is not
in the exclusion set, the status is PAUSED or COMPLETED, and the creation
time is at or before the cutoff; and the decision is identical under any
two lead-export oracles, i.e. it never depends on the campaign's lead
counts. -/
theorem C3_inclusion_pure (excludeIds : List Int) (cutoff : Int)
    (exportA exportB : Campaign → Option (List Lead)) (c : Campaign)
    (created updated : Int)
    (h1 : c.createdAt = some created) (h2 : c.updatedAt = some updated) :
    (processCampaign excludeIds cutoff exportA c).map (fun p => p.1.included) =
      some (!(excludeIds.any fun e => decide (c.clientId = some e))
        && allowedStatuses.contains c.status && decide (created ≤ cutoff))
    ∧ (processCampaign excludeIds cutoff exportA c).map (fun p => p.1.included) =
      (processCampaign excludeIds cutoff exportB c).map (fun p => p.1.included) := by
  constructor
  · simp [processCampaign, h1, h2, includeCampaign]
  · simp [processCampaign, h1, h2]

/-- Witness for C3 at a concrete campaign and two distinct export oracles. -/
theorem C3_inclusion_pure_witness :
    (processCampaign [1598] 10 (fun _ => some [lead0]) camp0).map
        (fun p => p.1.included) = some true
    ∧ (processCampaign [1598] 10 (fun _ => some [lead0]) camp0).map
        (fun p => p.1.included) =
      (processCampaign [1598] 10 (fun _ => none) camp0).map
        (fun p => p.1.included) := by
  have h := C3_inclusion_pure [1598] 10 (fun _ => some [lead0])
    (fun _ => none) camp0 0 0 (by decide) (by decide)
  refine ⟨?_, h.2⟩
  rw [h.1]
  decide

/-- Claim C8: the selector's descending sort is stable with ties in
original eligibility-report order — for every count value k, the
subsequence of rows carrying count k in the sorted pool is exactly, and in
the same order as, the subsequence carrying count k in the report (pandas
nargsort reverses before and after a stable ascending argsort, so the two
reversals cancel on each equal-key class).  In particular the sort keeps
the two concrete equal-count rows in report order and the selector picks
the FIRST of them; the sort stays descending, and sort and selection are
pure functions of the report, so two runs over the same report select the
same subset. -/
theorem C8_stable_tie_order (rows : List ReportRow) (k : Int) :
    (pandasSortDesc rows).filter (fun r => decide (r.noReplyLeads = k)) =
      rows.filter (fun r => decide (r.noReplyLeads = k))
    ∧ List.Pairwise (fun a b => b.noReplyLeads ≤ a.noReplyLeads)
        (pandasSortDesc rows)
    ∧ tieRow0.noReplyLeads = tieRow1.noReplyLeads
    ∧ pandasSortDesc [tieRow0, tieRow1] = [tieRow0, tieRow1]
    ∧ (selectCampaignsForDeletion 30 [tieRow0, tieRow1]).1 = [tieRow0] :=
  ⟨pandasSortDesc_stable k rows, pandasSortDesc_sorted rows,
   by decide, by decide, by decide⟩

/-- Claim C4: the Campaign Selector walks the included campaigns in
descending no-reply order (the selection is a sublist of the
descending-sorted pool), never takes a row with a non-positive no-reply
count, returns a cumulative count equal to the sum of the selected counts,
selects every positive row when the pool is exhausted below the target,
stops at the first point where the running sum reaches the target (every
proper prefix of the selection sums below the target), and on the pool
[50, 30, 20, 5] with target 70 selects exactly the counts [50, 30]. -/
theorem C4_selector_greedy (target : Int) (hT : 0 < target)
    (rows : List ReportRow) :
    List.Pairwise (fun a b => b.noReplyLeads ≤ a.noReplyLeads)
      (pandasSortDesc (rows.filter fun r => r.included))
    ∧ ((selectCampaignsForDeletion target rows).1).Sublist
        (pandasSortDesc (rows.filter fun r => r.included))
    ∧ (∀ r ∈ (selectCampaignsForDeletion target rows).1, 0 < r.noReplyLeads)
    ∧ (selectCampaignsForDeletion target rows).2 =
        ((selectCampaignsForDeletion target rows).1.map
          fun r => r.noReplyLeads).sum
    ∧ ((selectCampaignsForDeletion target rows).2 < target →
        (selectCampaignsForDeletion target rows).1 =
          (pandasSortDesc (rows.filter fun r => r.included)).filter
            fun r => decide (0 < r.noReplyLeads))
    ∧ (∀ k < (selectCampaignsForDeletion target rows).1.length,
        (((selectCampaignsForDeletion target rows).1.take k).map
          fun r => r.noReplyLeads).sum < target)
    ∧ (selectCampaignsForDeletion 70 demoRows).1.map
        (fun r => r.noReplyLeads) = [50, 30] := by
  refine ⟨pandasSortDesc_sorted _,
    selectLoop_sublist target (pandasSortDesc (rows.filter fun r => r.included)) 0,
    selectLoop_pos target (pandasSortDesc (rows.filter fun r => r.included)) 0,
    ?_, ?_, ?_, by decide⟩
  · simpa using
      selectLoop_sum target (pandasSortDesc (rows.filter fun r => r.included)) 0
  · intro hlt
    exact selectLoop_exhaust target
      (pandasSortDesc (rows.filter fun r => r.included)) 0 hlt
  · intro k hk
    simpa using
      selectLoop_take target (pandasSortDesc (rows.filter fun r => r.included))
        0 hT k hk

/-- Witness for C4 at target 70 over the scenario pool. -/
theorem C4_selector_greedy_witness :
    (0 : Int) < 70
    ∧ (∀ r ∈ (selectCampaignsForDeletion 70 demoRows).1, 0 < r.noReplyLeads)
    ∧ (selectCampaignsForDeletion 70 demoRows).1.map
        (fun r => r.noReplyLeads) = [50, 30] := by
  have h := C4_selector_greedy 70 (by decide) demoRows
  exact ⟨by decide, h.2.2.1, h.2.2.2.2.2.2⟩

/-- Claim C6, counterexample: a campaign whose created_at string fails to
parse makes the per-campaign try block raise before writer.writerow, so the
eligibility report of a 1-campaign input has 0 rows, not 1 — the claimed
1:1 row correspondence fails. -/
theorem C6_dropped_row_cex :
    ((filterAndAnalyzeCampaigns [] 0 (fun _ => none) [badCampaign]).1).length = 0
    ∧ [badCampaign].length = 1
    ∧ ((filterAndAnalyzeCampaigns [] 0 (fun _ => none) [badCampaign]).1).length ≠
        [badCampaign].length := by
  decide

/-- Claim C6 as amended: the eligibility report contains exactly one row
per input campaign whose two timestamps parse, in input order (the rows are
the in-order image of the per-campaign processing); a campaign whose
timestamp parsing fails is logged, produces no report row, is excluded
from the eligible subset, and does not abort the run — the remaining
campaigns are still processed. -/
theorem C6_report_rows (excludeIds : List Int) (cutoff : Int)
    (export1 : Campaign → Option (List Lead)) (campaigns : List Campaign) :
    (filterAndAnalyzeCampaigns excludeIds cutoff export1 campaigns).1 =
      campaigns.filterMap (fun c =>
        (processCampaign excludeIds cutoff export1 c).map Prod.fst)
    ∧ (filterAndAnalyzeCampaigns excludeIds cutoff export1 campaigns).1.length =
      (campaigns.filter fun c =>
        c.createdAt.isSome && c.updatedAt.isSome).length :=
  ⟨filterRows_eq_filterMap excludeIds cutoff export1 campaigns,
   filterRows_length excludeIds cutoff export1 campaigns⟩

theorem attachmentEvents_warn (files : String → Option String)
    (atts : List String) (p : String) (hp : p ∈ atts)
    (hmiss : files p = none) :
    EmailEvent.warnMissingAttachment p ∈ attachmentEvents files atts := by
  induction atts with
  | nil => simp at hp
  | cons q rest ih =>
      rcases List.mem_cons.1 hp with rfl | hp2
      · rw [attachmentEvents, hmiss]
        simp
      · rw [attachmentEvents]
        cases hq : files q <;> simp [List.mem_append] <;>
          [exact Or.inr (ih hp2); exact ih hp2]

/-- Claim C10: send_email never raises to its caller — it is a total
function into Bool, returning True exactly when the SMTP dispatch
succeeds; a listed attachment path that does not exist only produces a
warning log (never a failure), and the returned Bool does not depend on
the file system at all. -/
theorem C10_send_email_total (env : EmailEnv) (atts : List String) :
    ((sendEmail env atts).1 = true ↔ ∃ u, env.smtp = Except.ok u)
    ∧ (∀ p, p ∈ atts → env.files p = none →
        EmailEvent.warnMissingAttachment p ∈ (sendEmail env atts).2)
    ∧ (∀ f g : String → Option String,
        (sendEmail { files := f, smtp := env.smtp } atts).1 =
          (sendEmail { files := g, smtp := env.smtp } atts).1) := by
  refine ⟨?_, ?_, ?_⟩
  · cases hs : env.smtp with
    | ok u => simp [sendEmail, sendEmailBody, hs]
    | error e => simp [sendEmail, sendEmailBody, hs]
  · intro p hp hmiss
    have hw := attachmentEvents_warn env.files atts p hp hmiss
    cases hs : env.smtp with
    | ok u =>
        simp only [sendEmail, sendEmailBody, hs, List.mem_append]
        exact Or.inl hw
    | error e =>
        simp only [sendEmail, sendEmailBody, hs, List.mem_append]
        exact Or.inl hw
  · intro f g
    cases hs : env.smtp with
    | ok u => simp [sendEmail, sendEmailBody, hs]
    | error e => simp [sendEmail, sendEmailBody, hs]

/-- Witness for C10: a successful SMTP session with one missing attachment
still returns True and logs the warning. -/
theorem C10_send_email_total_witness :
    (sendEmail emailEnv0 ["missing.csv"]).1 = true
    ∧ EmailEvent.warnMissingAttachment "missing.csv" ∈
        (sendEmail emailEnv0 ["missing.csv"]).2 := by
  have h := C10_send_email_total emailEnv0 ["missing.csv"]
  exact ⟨h.1.2 ⟨(), rfl⟩, h.2.1 "missing.csv" (by simp) rfl⟩

/-- Claim C5: each of the four pipeline-halting conditions (no campaigns
fetched, none eligible, none selected, empty backup set) makes the run end
with the failure-email attempt as the last observable event — no backup
write, delete call or completion email ever appears in the trace — the
terminal error propagates out of run_full_process, and main exits with
status 1, which by construction happens only after the failure-email
attempt already sits in the trace. -/
theorem C5_halting_conditions (env : Env) :
    (env.campaigns.isEmpty = true →
        runFullProcess env =
          ([Event.failureEmail "No campaigns retrieved"],
           Except.error "No campaigns retrieved")
        ∧ mainExitCode env = 1)
    ∧ (env.campaigns.isEmpty = false →
        (pipelineFiltered env).isEmpty = true →
        runFullProcess env =
          ([Event.reportWritten (pipelineRows env),
            Event.failureEmail "No campaigns match filter criteria"],
           Except.error "No campaigns match filter criteria")
        ∧ mainExitCode env = 1)
    ∧ (env.campaigns.isEmpty = false →
        (pipelineFiltered env).isEmpty = false →
        (pipelineSelected env).isEmpty = true →
        runFullProcess env =
          ([Event.reportWritten (pipelineRows env),
            Event.failureEmail "No campaigns selected for deletion"],
           Except.error "No campaigns selected for deletion")
        ∧ mainExitCode env = 1)
    ∧ (env.campaigns.isEmpty = false →
        (pipelineFiltered env).isEmpty = false →
        (pipelineSelected env).isEmpty = false →
        (pipelineBackup env).isEmpty = true →
        runFullProcess env =
          ([Event.reportWritten (pipelineRows env),
            Event.failureEmail "No leads found for backup"],
           Except.error "No leads found for backup")
        ∧ mainExitCode env = 1) := by
  refine ⟨?_, ?_, ?_, ?_⟩
  · intro h1
    have hr : runFullProcess env =
        ([Event.failureEmail "No campaigns retrieved"],
         Except.error "No campaigns retrieved") := by
      simp only [runFullProcess]
      rw [if_pos h1]
    exact ⟨hr, by simp [mainExitCode, hr]⟩
  · intro h1 h2
    have hr : runFullProcess env =
        ([Event.reportWritten (pipelineRows env),
          Event.failureEmail "No campaigns match filter criteria"],
         Except.error "No campaigns match filter criteria") := by
      simp only [runFullProcess]
      rw [if_neg (by simp [h1]), if_pos h2]
    exact ⟨hr, by simp [mainExitCode, hr]⟩
  · intro h1 h2 h3
    have hr : runFullProcess env =
        ([Event.reportWritten (pipelineRows env),
          Event.failureEmail "No campaigns selected for deletion"],
         Except.error "No campaigns selected for deletion") := by
      simp only [runFullProcess]
      rw [if_neg (by simp [h1]), if_neg (by simp [h2]), if_pos h3]
    exact ⟨hr, by simp [mainExitCode, hr]⟩
  · intro h1 h2 h3 h4
    have hr : runFullProcess env =
        ([Event.reportWritten (pipelineRows env),
          Event.failureEmail "No leads found for backup"],
         Except.error "No leads found for backup") := by
      simp only [runFullProcess]
      rw [if_neg (by simp [h1]), if_neg (by simp [h2]),
        if_neg (by simp [h3]), if_pos h4]
    exact ⟨hr, by simp [mainExitCode, hr]⟩

/-- Witness for C5 at an environment whose campaign fetch yields nothing. -/
theorem C5_halting_conditions_witness :
    runFullProcess env1 =
      ([Event.failureEmail "No campaigns retrieved"],
       Except.error "No campaigns retrieved")
    ∧ mainExitCode env1 = 1 :=
  (C5_halting_conditions env1).1 (by decide)

/-- Claim C2: in every run, any remote delete call in the trace is strictly
preceded by the write of the full (non-empty) backup set, and that backup
set contains a record carrying exactly the campaign id and lead id of the
delete call — deletion never begins against an empty or unwritten backup. -/
theorem C2_backup_before_delete (env : Env) (i : Nat) (cid lid : Int)
    (h : (runFullProcess env).1.get? i = some (Event.deleteCall cid lid)) :
    ∃ j recs, j < i ∧
      (runFullProcess env).1.get? j = some (Event.backupWritten recs) ∧
      recs ≠ [] ∧ ∃ r ∈ recs, r.campaignId = some cid ∧ r.leadId = some lid := by
  by_cases h1 : env.campaigns.isEmpty
  · have htr : (runFullProcess env).1 =
        [Event.failureEmail "No campaigns retrieved"] := by
      simp only [runFullProcess]
      rw [if_pos h1]
    rw [htr] at h
    cases i with
    | zero => simp at h
    | succ n => simp at h
  · by_cases h2 : (pipelineFiltered env).isEmpty
    · have htr : (runFullProcess env).1 =
          [Event.reportWritten (pipelineRows env),
           Event.failureEmail "No campaigns match filter criteria"] := by
        simp only [runFullProcess]
        rw [if_neg h1, if_pos h2]
      rw [htr] at h
      cases i with
      | zero => simp at h
      | succ n =>
          cases n with
          | zero => simp at h
          | succ m => simp at h
    · by_cases h3 : (pipelineSelected env).isEmpty
      · have htr : (runFullProcess env).1 =
            [Event.reportWritten (pipelineRows env),
             Event.failureEmail "No campaigns selected for deletion"] := by
          simp only [runFullProcess]
          rw [if_neg h1, if_neg h2, if_pos h3]
        rw [htr] at h
        cases i with
        | zero => simp at h
        | succ n =>
            cases n with
            | zero => simp at h
            | succ m => simp at h
      · by_cases h4 : (pipelineBackup env).isEmpty
        · have htr : (runFullProcess env).1 =
              [Event.reportWritten (pipelineRows env),
               Event.failureEmail "No leads found for backup"] := by
            simp only [runFullProcess]
            rw [if_neg h1, if_neg h2, if_neg h3, if_pos h4]
          rw [htr] at h
          cases i with
          | zero => simp at h
          | succ n =>
              cases n with
              | zero => simp at h
              | succ m => simp at h
        · have htr : (runFullProcess env).1 =
              Event.reportWritten (pipelineRows env) ::
                Event.backupWritten (pipelineBackup env) ::
                ((deleteLeads env.deleteAttempts (pipelineBackup env)).2.2 ++
                  [Event.completionEmail]) := by
            simp only [runFullProcess]
            rw [if_neg h1, if_neg h2, if_neg h3, if_neg h4]
          rw [htr] at h ⊢
          cases i with
          | zero => simp at h
          | succ n =>
              cases n with
              | zero => simp at h
              | succ m =>
                  rw [List.get?_cons_succ, List.get?_cons_succ] at h
                  have hmem := List.get?_mem h
                  rcases List.mem_append.1 hmem with hdel | hcomp
                  · have hgo : Event.deleteCall cid lid ∈
                        (deleteLeadsGo env.deleteAttempts
                          (pipelineBackup env) 0 0).2.2 := by
                      rw [deleteLeads, if_neg h4] at hdel
                      exact hdel
                    obtain ⟨r, hr, hrc, hrl⟩ :=
                      deleteLeadsGo_deleteCall_mem env.deleteAttempts
                        (pipelineBackup env) 0 0 cid lid hgo
                    refine ⟨1, pipelineBackup env, by omega, ?_, ?_,
                      ⟨r, hr, hrc, hrl⟩⟩
                    · rw [List.get?_cons_succ, List.get?_cons_zero]
                    · intro hnil
                      exact h4 (List.isEmpty_iff.2 hnil)
                  · simp at hcomp

/-- Witness for C2: in the concrete successful run env0, the delete call at
trace position 2 is preceded by the backup write at position 1. -/
theorem C2_backup_before_delete_witness :
    ∃ j recs, j < 2 ∧
      (runFullProcess env0).1.get? j = some (Event.backupWritten recs) ∧
      recs ≠ [] ∧ ∃ r ∈ recs, r.campaignId = some 1 ∧ r.leadId = some 10 :=
  C2_backup_before_delete env0 2 1 10 (by decide)
